import Mathlib

/-!
# Verification of the DroidRun e-commerce price-comparison web client

Shallow embedding of `src/droidrun/web/app.js` (the `PriceHunter` class), the
only executable source file shipped in the repository.  DOM nodes touched by
the client are modelled as fields of an explicit `ClientState`; the per-task
push channel delivers already-parsed JSON `Update` records; HTTP requests and
timers appear as explicit effect values returned by the operations.

JavaScript peculiarities that the embedding keeps faithfully:
* truthiness tests — `if (x)` on an optional string is false for a missing
  field *and* for the empty string; on an optional number it is false for a
  missing field and for `0`;
* `a || b` on strings yields `b` when `a` is missing or empty;
* `document.querySelector` returns the *first* matching element.

The server side of the system (task registry, orchestrators, broadcaster) is
not present under `src/`; the one place a claim depends on it (winner
selection) is modelled from the spec and marked as such.
-/

/-- State of one storefront price card in the results grid
(`.price-card[data-app=...]` together with its child nodes). -/
structure CardState where
  badge : String
  badgeClass : String
  productName : String
  priceValue : String
  loadingHidden : Bool
  contentHidden : Bool
  buyHidden : Bool
  bestPriceClass : Bool
deriving DecidableEq

/-- The winning offer carried by a terminal search event (`data.best`). -/
structure BestOffer where
  app : String
  price : Int
deriving DecidableEq

/-- A settled probe result as delivered in `data.result`
(`{found: bool, price?: number, error?: string}`).  Prices are modelled as
integers; the JavaScript falsiness of `0` is captured by `truthyNum`. -/
structure ProbeResult where
  found : Bool
  price : Option Int := none
  error : Option String := none
deriving DecidableEq

/-- A JSON update pushed on a task's websocket.  Every field is optional;
the spec's event shapes populate one group each. -/
structure Update where
  current_app : Option String := none
  app_complete : Option String := none
  result : Option ProbeResult := none
  status : Option String := none
  best : Option BestOffer := none
  error : Option String := none
deriving DecidableEq

/-- The client's mutable state: the `PriceHunter` instance fields together
with the DOM nodes its methods read and write. -/
structure ClientState where
  currentTaskId : Option String
  currentProduct : String
  productInput : String
  results : List (String × ProbeResult)
  resultsBest : Option BestOffer
  cards : List (String × CardState)
  statusHidden : Bool
  statusTitle : String
  statusMessage : String
  resultsSectionHidden : Bool
  bestDealHidden : Bool
  bestApp : String
  bestPrice : String
  bestAppBtn : String
  btnTextHidden : Bool
  btnLoaderHidden : Bool
  searchBtnDisabled : Bool
  orderModalHidden : Bool
  orderApp : String
  orderProduct : String
  selectedOrderApp : String
  orderStatusModalHidden : Bool
  orderStatusTitle : String
  orderStatusMsg : String
deriving DecidableEq

/-- JavaScript truthiness of an optional string: missing and `""` are falsy. -/
def truthyStr : Option String → Bool
  | none => false
  | some s => s ≠ ""

/-- JavaScript truthiness of an optional number: missing and `0` are falsy. -/
def truthyNum : Option Int → Bool
  | none => false
  | some p => p ≠ 0

/-- JavaScript `a || b` for an optional string `a` and a string default `b`. -/
def jsOrStr : Option String → String → String
  | some s, d => if s = "" then d else s
  | none, d => d

/-- `capitalize` (app.js:324-326): upper-case the first character. -/
def capitalize (s : String) : String :=
  (s.take 1).toUpper ++ s.drop 1

/-- JavaScript `String.prototype.trim`: drop leading and trailing
whitespace.  (Defined structurally over the character list so that concrete
inputs evaluate; the library `String.trim` uses well-founded recursion on
byte positions and does not reduce.) -/
def strTrim (s : String) : String :=
  ⟨((s.data.dropWhile Char.isWhitespace).reverse.dropWhile
      Char.isWhitespace).reverse⟩

/-- Setting `textContent` to a numeric price renders its decimal digits. -/
def priceText : Option Int → String
  | some p => toString p
  | none => ""

/-- `document.querySelector('.price-card[data-app="x"]')`: the first card
whose key matches. -/
def getCard : List (String × CardState) → String → Option CardState
  | [], _ => none
  | (a, c) :: t, app => if a = app then some c else getCard t app

/-- Mutate the first card whose key matches, leaving the rest untouched. -/
def setCard : List (String × CardState) → String → (CardState → CardState) →
    List (String × CardState)
  | [], _, _ => []
  | (a, c) :: t, app, f =>
      if a = app then (a, f c) :: t else (a, c) :: setCard t app f

/-- Object property read `this.results[app]`. -/
def getResult : List (String × ProbeResult) → String → Option ProbeResult
  | [], _ => none
  | (a, r) :: t, app => if a = app then some r else getResult t app

/-- Object property write `this.results[app] = result`. -/
def setResult : List (String × ProbeResult) → String → ProbeResult →
    List (String × ProbeResult)
  | [], app, r => [(app, r)]
  | (a, x) :: t, app, r =>
      if a = app then (a, r) :: t else (a, x) :: setResult t app r

/-- `showStatus` (app.js:188-192). -/
def showStatus (title message : String) (st : ClientState) : ClientState :=
  { st with statusHidden := false, statusTitle := title,
            statusMessage := message }

/-- `setSearchLoading` (app.js:176-186). -/
def setSearchLoading (loading : Bool) (st : ClientState) : ClientState :=
  if loading then
    { st with btnTextHidden := true, btnLoaderHidden := false,
              searchBtnDisabled := true }
  else
    { st with btnTextHidden := false, btnLoaderHidden := true,
              searchBtnDisabled := false }

/-- The per-card body of `resetCards` (app.js:194-210); note that the code
does not reset the `.price-value` text. -/
def resetCard (c : CardState) : CardState :=
  { c with bestPriceClass := false, loadingHidden := false,
           contentHidden := true, productName := "Waiting...",
           badge := "Pending", badgeClass := "status-badge pending",
           buyHidden := true }

/-- `resetCards` (app.js:194-210). -/
def resetCards (st : ClientState) : ClientState :=
  { st with cards := st.cards.map (fun p => (p.1, resetCard p.2)) }

/-- The card mutation performed by `setCardSearching` (app.js:219-221). -/
def searchingCard (c : CardState) : CardState :=
  { c with badge := "Searching", badgeClass := "status-badge searching",
           productName := "Searching..." }

/-- `setCardSearching` (app.js:212-222): no matching card means an early
return with nothing changed. -/
def setCardSearching (app : String) (st : ClientState) : ClientState :=
  match getCard st.cards app with
  | none => st
  | some _ => { st with cards := setCard st.cards app searchingCard }

/-- The card mutation performed by `updateCard` (app.js:235-250): hide the
loading spinner, then fill in either the found branch
(`result.found && result.price`, i.e. a truthy non-zero, non-missing price)
or the error branch (`result.error || 'Not found'`). -/
def cardBody (result : ProbeResult) (product : String) (c0 : CardState) :
    CardState :=
  let c := { c0 with loadingHidden := true }
  if result.found && truthyNum result.price then
    { c with contentHidden := false,
             priceValue := priceText result.price,
             productName := product,
             badge := "Found", badgeClass := "status-badge found",
             buyHidden := false }
  else
    { c with contentHidden := false, priceValue := "--",
             productName := jsOrStr result.error "Not found",
             badge := "Error", badgeClass := "status-badge error" }

/-- `updateCard` (app.js:224-253): in both branches the result is recorded
under the storefront key; with no matching card the method returns before
changing anything. -/
def updateCard (app : String) (result : ProbeResult) (st : ClientState) :
    ClientState :=
  match getCard st.cards app with
  | none => st
  | some _ =>
      { st with
        cards := setCard st.cards app (cardBody result st.currentProduct),
        results := setResult st.results app result }

/-- The rupee sign exactly as the bytes of app.js:164 spell it
(the file stores a double-encoded currency sign). -/
def rupeeSign : String := "â‚¹"

/-- `handleSearchComplete` (app.js:157-174): clear the loading state, hide
the status banner, and if the terminal event carries `best`, store it,
fill in the best-deal panel, un-hide it and highlight the winning card.
`setCard` on a missing key is the identity, which matches the
`if (bestCard)` guard around the class addition. -/
def handleSearchComplete (data : Update) (st : ClientState) : ClientState :=
  let st1 := setSearchLoading false st
  let st2 := { st1 with statusHidden := true }
  match data.best with
  | none => st2
  | some b =>
      let st3 := { st2 with
        resultsBest := some b,
        bestApp := capitalize b.app,
        bestPrice := rupeeSign ++ toString b.price,
        bestAppBtn := capitalize b.app,
        bestDealHidden := false }
      { st3 with cards :=
          setCard st3.cards b.app (fun c => { c with bestPriceClass := true }) }

/-- The `if (data.current_app)` block of `handleUpdate` (app.js:140-146). -/
def currentAppStep (data : Update) (st : ClientState) : ClientState :=
  if truthyStr data.current_app then
    let app := data.current_app.getD ""
    setCardSearching app (showStatus
      ("Searching on " ++ capitalize app ++ "...")
      ("Your phone is searching " ++ app.toUpper ++ " for \"" ++
        st.currentProduct ++ "\"") st)
  else st

/-- The `if (data.app_complete && data.result)` block of `handleUpdate`
(app.js:148-150). -/
def appCompleteStep (data : Update) (st : ClientState) : ClientState :=
  if truthyStr data.app_complete then
    match data.result with
    | some r => updateCard (data.app_complete.getD "") r st
    | none => st
  else st

/-- `handleUpdate` (app.js:137-155): the three field groups are examined in
order; a `status === 'completed'` update ends with `handleSearchComplete`. -/
def handleUpdate (data : Update) (st : ClientState) : ClientState :=
  let st1 := currentAppStep data st
  let st2 := appCompleteStep data st1
  if data.status = some "completed" then handleSearchComplete data st2
  else st2

/-- Request bodies built with `JSON.stringify` in app.js. -/
inductive ReqBody where
  | search (product : String)
  | order (product app : String)
deriving DecidableEq

/-- Outgoing HTTP requests issued with `fetch`. -/
inductive Effect where
  | fetch (method path : String) (body : ReqBody)
deriving DecidableEq

/-- `startSearch` (app.js:77-113) up to the `await fetch`: an empty trimmed
input only re-focuses the field and issues no request; otherwise the UI is
reset and a `POST /search` with the trimmed product is issued. -/
def startSearch (st : ClientState) : ClientState × List Effect :=
  let product := strTrim st.productInput
  if product = "" then (st, [])
  else
    let st1 := { st with currentProduct := product, results := [],
                          resultsBest := none }
    let st2 := setSearchLoading true st1
    let st3 := showStatus "Connecting to your phone..." "Starting search..." st2
    let st4 := { st3 with resultsSectionHidden := false }
    let st5 := resetCards st4
    let st6 := { st5 with bestDealHidden := true }
    (st6, [Effect.fetch "POST" "/search" (ReqBody.search product)])

/-- A websocket opened for a search task: its URL and its `onmessage`
handler (which parses the event data and forwards it to `handleUpdate`). -/
structure WsConn where
  url : String
  onmessage : Update → ClientState → ClientState

/-- `connectWebSocket` (app.js:115-126). -/
def connectWebSocket (host taskId : String) : WsConn :=
  { url := "ws://" ++ host ++ "/ws/" ++ taskId, onmessage := handleUpdate }

/-- The continuation of `startSearch` after the `/search` response arrives
(app.js:102-106): remember the task id and open the push channel. -/
def onSearchResponse (host taskId : String) (st : ClientState) :
    ClientState × WsConn :=
  ({ st with currentTaskId := some taskId }, connectWebSocket host taskId)

/-- The `catch` branch of `startSearch` (app.js:108-112). -/
def onSearchError (st : ClientState) : ClientState :=
  setSearchLoading false
    (showStatus "Connection failed" "Could not connect to server. Is it running?" st)

/-- A click on the search button (app.js:52).  A disabled HTML button does
not dispatch click events, so the listener only runs when the button is
enabled. -/
def dispatchSearchClick (st : ClientState) : ClientState × List Effect :=
  if st.searchBtnDisabled then (st, []) else startSearch st

/-- The Enter keypress listener on the product input (app.js:53-55); it
calls `startSearch` unconditionally. -/
def dispatchEnterKey (st : ClientState) : ClientState × List Effect :=
  startSearch st

/-- `showOrderModal` (app.js:255-260). -/
def showOrderModal (app : String) (st : ClientState) : ClientState :=
  { st with selectedOrderApp := app, orderApp := capitalize app,
            orderProduct := st.currentProduct, orderModalHidden := false }

/-- `hideOrderModal` (app.js:262-264). -/
def hideOrderModal (st : ClientState) : ClientState :=
  { st with orderModalHidden := true }

/-- The order-status-modal titles exactly as the bytes of app.js spell them
(the file stores double-encoded emoji). -/
def titlePlacing : String := "ðŸ“¦ Placing Order..."

/-- Title shown on a completed order (app.js:293). -/
def titlePlaced : String := "âœ… Order Placed!"

/-- Title shown on a failed order (app.js:302). -/
def titleFailed : String := "âŒ Order Failed"

/-- Title shown when the `/order` request itself fails (app.js:315). -/
def titleError : String := "âŒ Error"

/-- `placeOrder` (app.js:266-287) up to the `await fetch`: dismiss the
confirmation modal, show the order-status modal, and issue `POST /order`
with the current product and the selected storefront. -/
def placeOrder (st : ClientState) : ClientState × List Effect :=
  let st1 := hideOrderModal st
  let st2 := { st1 with
    orderStatusModalHidden := false,
    orderStatusTitle := titlePlacing,
    orderStatusMsg :=
      "Automating order on " ++ capitalize st.selectedOrderApp ++ "..." }
  (st2, [Effect.fetch "POST" "/order"
          (ReqBody.order st.currentProduct st.selectedOrderApp)])

/-- Result of one delivery on the order websocket: the new client state, an
optional scheduled modal dismissal (`setTimeout` delay in milliseconds), and
whether the socket was closed. -/
structure OrderStep where
  st : ClientState
  dismissAfterMs : Option Nat
  closeWs : Bool
deriving DecidableEq

/-- The `orderWs.onmessage` handler (app.js:289-311): `status === 'completed'`
and `status === 'error'` are terminal — both schedule the status modal to be
hidden after 3000 ms and close the socket; the error branch shows
`update.error || 'Failed to place order'`. -/
def orderOnMessage (update : Update) (st : ClientState) : OrderStep :=
  if update.status = some "completed" then
    { st := { st with orderStatusTitle := titlePlaced,
                      orderStatusMsg := "Your order has been placed successfully!" },
      dismissAfterMs := some 3000, closeWs := true }
  else if update.status = some "error" then
    { st := { st with orderStatusTitle := titleFailed,
                      orderStatusMsg := jsOrStr update.error "Failed to place order" },
      dismissAfterMs := some 3000, closeWs := true }
  else
    { st := st, dismissAfterMs := none, closeWs := false }

/-- The body of the scheduled `setTimeout` callback: hide the order-status
modal. -/
def dismissOrderStatus (st : ClientState) : ClientState :=
  { st with orderStatusModalHidden := true }

/-- The websocket opened for an order task, with its `onmessage` handler. -/
structure OrderWs where
  url : String
  onmessage : Update → ClientState → OrderStep

/-- The continuation of `placeOrder` after the `/order` response arrives
(app.js:284-287): subscribe to the task's push channel. -/
def onOrderResponse (host taskId : String) : OrderWs :=
  { url := "ws://" ++ host ++ "/ws/" ++ taskId, onmessage := orderOnMessage }

/-- The `catch` branch of `placeOrder` (app.js:313-321): error title and
message, status modal scheduled to hide after 3000 ms. -/
def onOrderError (st : ClientState) : ClientState × Option Nat :=
  ({ st with orderStatusTitle := titleError,
             orderStatusMsg := "Failed to communicate with server" },
   some 3000)

/-! ## Server-side winner selection (not shipped under `src/`)

The repository ships only the web client; the Search Orchestrator that picks
the winning offer runs on the server and its code is absent.  The following
definitions are therefore modelled from the spec, as noted on each. -/

/-- Modelled from the spec: a probe outcome as recorded by the missing
Search Orchestrator (§3 ProbeResult — storefront identifier, found flag,
price present iff found). -/
structure SProbe where
  found : Bool
  price : Int
deriving DecidableEq

/-- Modelled from the spec: the storefronts configured on the server, in
precedence (registration) order — "Amazon, Flipkart, Blinkit, Zepto" per the
repository README; also the card keys in the client's results grid, whose
`index.html` is not shipped under `src/`. -/
def cardApps : List String := ["amazon", "flipkart", "blinkit", "zepto"]

/-- Modelled from the spec: the task's per-storefront result collection as
built from probe completions arriving in some order (§4.2: "As each adapter
settles ... records a ProbeResult against the task"). -/
def arrivedResult : List (String × SProbe) → String → Option SProbe
  | [], _ => none
  | (a, r) :: t, app => if app = a then some r else arrivedResult t app

/-- Modelled from the spec: the found offers, listed in configured
storefront precedence order (§4.2: only results with `found = true`
participate in offer selection). -/
def foundOffers (res : String → Option SProbe) : List String → List (String × Int)
  | [] => []
  | a :: t =>
      match res a with
      | some r =>
          if r.found then (a, r.price) :: foundOffers res t
          else foundOffers res t
      | none => foundOffers res t

/-- Modelled from the spec: keep the cheaper of the head offer and the best
of the rest; on a tie the head (earlier in precedence order) wins. -/
def pickBetter (x : String × Int) : Option (String × Int) → String × Int
  | none => x
  | some y => if y.2 < x.2 then y else x

/-- Modelled from the spec: "pick the minimum price; ties broken by fixed
storefront precedence order" (§4.2) — among equal prices the earlier entry
wins. -/
def selectMin : List (String × Int) → Option (String × Int)
  | [] => none
  | x :: t => some (pickBetter x (selectMin t))

/-- Modelled from the spec: the Offer computed by the Search Orchestrator
once all probes have settled (§4.2). -/
def computeBest (res : String → Option SProbe) (cfg : List String) :
    Option (String × Int) :=
  selectMin (foundOffers res cfg)

/-! ## Concrete states used by witnesses and counterexamples -/

/-- A card as `index.html` delivers it before any search. -/
def freshCard : CardState :=
  { badge := "Pending", badgeClass := "status-badge pending",
    productName := "Waiting...", priceValue := "", loadingHidden := false,
    contentHidden := true, buyHidden := true, bestPriceClass := false }

/-- The client state right after page load: four storefront cards, no search
in flight. -/
def initState : ClientState :=
  { currentTaskId := none, currentProduct := "", productInput := "",
    results := [], resultsBest := none,
    cards := cardApps.map (fun a => (a, freshCard)),
    statusHidden := true, statusTitle := "", statusMessage := "",
    resultsSectionHidden := true, bestDealHidden := true,
    bestApp := "", bestPrice := "", bestAppBtn := "",
    btnTextHidden := false, btnLoaderHidden := true,
    searchBtnDisabled := false, orderModalHidden := true,
    orderApp := "", orderProduct := "", selectedOrderApp := "",
    orderStatusModalHidden := true, orderStatusTitle := "",
    orderStatusMsg := "" }

/-- A state with a search for "iphone 15" in flight (button disabled). -/
def busyState : ClientState :=
  { initState with productInput := "iphone 15",
                   currentProduct := "iphone 15",
                   searchBtnDisabled := true, btnTextHidden := true,
                   btnLoaderHidden := false, statusHidden := false,
                   resultsSectionHidden := false }

/-! ## Helper lemmas -/

theorem getCard_setCard_self (cs : List (String × CardState)) (app : String)
    (f : CardState → CardState) :
    getCard (setCard cs app f) app = (getCard cs app).map f := by
  induction cs with
  | nil => rfl
  | cons p t ih =>
      obtain ⟨a, c⟩ := p
      by_cases h : a = app <;> simp [getCard, setCard, h, ih]

theorem getResult_setResult_self (rs : List (String × ProbeResult))
    (app : String) (r : ProbeResult) :
    getResult (setResult rs app r) app = some r := by
  induction rs with
  | nil => simp [setResult, getResult]
  | cons p t ih =>
      obtain ⟨a, x⟩ := p
      by_cases h : a = app <;> simp [getResult, setResult, h, ih]

theorem getCard_mem {cs : List (String × CardState)} {app : String}
    {c : CardState} (h : getCard cs app = some c) : app ∈ cs.map Prod.fst := by
  induction cs with
  | nil => simp [getCard] at h
  | cons p t ih =>
      obtain ⟨a, c'⟩ := p
      by_cases ha : a = app
      · simp [ha]
      · simp [getCard, ha] at h
        simp [ih h]

theorem jsOrStr_ne_empty (o : Option String) (d : String) (hd : d ≠ "") :
    jsOrStr o d ≠ "" := by
  cases o with
  | none => simpa [jsOrStr] using hd
  | some s =>
      by_cases hs : s = "" <;> simp [jsOrStr, hs, hd]

theorem setCardSearching_shape (app : String) (st : ClientState) :
    ∃ cs, setCardSearching app st = { st with cards := cs } := by
  unfold setCardSearching
  rcases getCard st.cards app with _ | c
  · exact ⟨st.cards, rfl⟩
  · exact ⟨_, rfl⟩

theorem updateCard_shape (app : String) (r : ProbeResult) (st : ClientState) :
    ∃ cs rs, updateCard app r st = { st with cards := cs, results := rs } := by
  unfold updateCard
  rcases getCard st.cards app with _ | c
  · exact ⟨st.cards, st.results, rfl⟩
  · exact ⟨_, _, rfl⟩

theorem currentAppStep_shape (u : Update) (st : ClientState) :
    ∃ cs sh t m, currentAppStep u st =
      { st with cards := cs, statusHidden := sh, statusTitle := t,
                statusMessage := m } := by
  unfold currentAppStep
  by_cases h : truthyStr u.current_app = true
  · simp only [h, if_true]
    obtain ⟨cs, hcs⟩ := setCardSearching_shape (u.current_app.getD "")
      (showStatus ("Searching on " ++ capitalize (u.current_app.getD "") ++ "...")
        ("Your phone is searching " ++ (u.current_app.getD "").toUpper ++
          " for \"" ++ st.currentProduct ++ "\"") st)
    exact ⟨cs, _, _, _, hcs⟩
  · simp only [h, if_false]
    exact ⟨st.cards, st.statusHidden, st.statusTitle, st.statusMessage, rfl⟩

theorem appCompleteStep_shape (u : Update) (st : ClientState) :
    ∃ cs rs, appCompleteStep u st = { st with cards := cs, results := rs } := by
  unfold appCompleteStep
  by_cases h : truthyStr u.app_complete = true
  · simp only [h, if_true]
    rcases u.result with _ | r
    · exact ⟨st.cards, st.results, rfl⟩
    · exact updateCard_shape (u.app_complete.getD "") r st
  · simp only [h, if_false]
    exact ⟨st.cards, st.results, rfl⟩

theorem handleSearchComplete_loading (u : Update) (st : ClientState) :
    (handleSearchComplete u st).searchBtnDisabled = false ∧
    (handleSearchComplete u st).btnTextHidden = false ∧
    (handleSearchComplete u st).btnLoaderHidden = true ∧
    (handleSearchComplete u st).statusHidden = true := by
  rcases hb : u.best with _ | b <;>
    simp [handleSearchComplete, setSearchLoading, hb]

theorem handleSearchComplete_best {u : Update} {b : BestOffer}
    (st : ClientState) (hb : u.best = some b) :
    (handleSearchComplete u st).resultsBest = some b ∧
    (handleSearchComplete u st).bestDealHidden = false ∧
    (handleSearchComplete u st).bestApp = capitalize b.app ∧
    (handleSearchComplete u st).bestPrice = rupeeSign ++ toString b.price ∧
    (handleSearchComplete u st).bestAppBtn = capitalize b.app := by
  simp [handleSearchComplete, setSearchLoading, hb]

theorem handleSearchComplete_noBest {u : Update} (st : ClientState)
    (hb : u.best = none) :
    (handleSearchComplete u st).resultsBest = st.resultsBest ∧
    (handleSearchComplete u st).bestDealHidden = st.bestDealHidden := by
  simp [handleSearchComplete, setSearchLoading, hb]

theorem handleUpdate_eq_of_completed (u : Update) (st : ClientState)
    (hs : u.status = some "completed") :
    handleUpdate u st =
      handleSearchComplete u (appCompleteStep u (currentAppStep u st)) := by
  simp [handleUpdate, hs]

theorem handleUpdate_eq_of_not_completed (u : Update) (st : ClientState)
    (hs : u.status ≠ some "completed") :
    handleUpdate u st = appCompleteStep u (currentAppStep u st) := by
  simp [handleUpdate, hs]

theorem preSteps_frame (u : Update) (st : ClientState) :
    (appCompleteStep u (currentAppStep u st)).resultsBest = st.resultsBest ∧
    (appCompleteStep u (currentAppStep u st)).bestDealHidden = st.bestDealHidden ∧
    (appCompleteStep u (currentAppStep u st)).searchBtnDisabled = st.searchBtnDisabled ∧
    (appCompleteStep u (currentAppStep u st)).btnTextHidden = st.btnTextHidden ∧
    (appCompleteStep u (currentAppStep u st)).btnLoaderHidden = st.btnLoaderHidden := by
  obtain ⟨cs, sh, t, m, h1⟩ := currentAppStep_shape u st
  obtain ⟨cs2, rs2, h2⟩ := appCompleteStep_shape u (currentAppStep u st)
  rw [h2, h1]
  exact ⟨rfl, rfl, rfl, rfl, rfl⟩

/-! ## Claim theorems -/

/-- C1: every update whose `status` field equals `"completed"` is treated as
the terminal search event — `handleSearchComplete` runs on it, the
search-loading state is cleared, and if the update carries `best` its
`{app, price}` is stored as `results.best` and shown in the best-deal panel,
while if `best` is absent nothing is stored and the panel keeps its previous
(hidden) visibility. -/
theorem C1_terminal_search_event (u : Update) (st : ClientState)
    (hs : u.status = some "completed") :
    handleUpdate u st =
      handleSearchComplete u (appCompleteStep u (currentAppStep u st)) ∧
    (handleUpdate u st).searchBtnDisabled = false ∧
    (handleUpdate u st).btnTextHidden = false ∧
    (handleUpdate u st).btnLoaderHidden = true ∧
    (∀ b, u.best = some b →
      (handleUpdate u st).resultsBest = some b ∧
      (handleUpdate u st).bestDealHidden = false ∧
      (handleUpdate u st).bestApp = capitalize b.app ∧
      (handleUpdate u st).bestPrice = rupeeSign ++ toString b.price ∧
      (handleUpdate u st).bestAppBtn = capitalize b.app) ∧
    (u.best = none →
      (handleUpdate u st).resultsBest = st.resultsBest ∧
      (handleUpdate u st).bestDealHidden = st.bestDealHidden) := by
  have hU := handleUpdate_eq_of_completed u st hs
  refine ⟨hU, ?_, ?_, ?_, ?_, ?_⟩
  · rw [hU]; exact (handleSearchComplete_loading u _).1
  · rw [hU]; exact (handleSearchComplete_loading u _).2.1
  · rw [hU]; exact (handleSearchComplete_loading u _).2.2.1
  · intro b hb
    rw [hU]
    exact handleSearchComplete_best _ hb
  · intro hb
    rw [hU]
    obtain ⟨h1, h2⟩ := handleSearchComplete_noBest
      (appCompleteStep u (currentAppStep u st)) hb
    obtain ⟨f1, f2, _⟩ := preSteps_frame u st
    exact ⟨h1.trans f1, h2.trans f2⟩

/-- The terminal event used to exercise `C1_terminal_search_event`. -/
def updC1 : Update :=
  { status := some "completed", best := some ⟨"flipkart", 79999⟩ }

theorem C1_witness :
    (handleUpdate updC1 busyState).searchBtnDisabled = false ∧
    (handleUpdate updC1 busyState).resultsBest = some ⟨"flipkart", 79999⟩ ∧
    (handleUpdate updC1 busyState).bestDealHidden = false ∧
    (handleUpdate updC1 busyState).bestPrice = rupeeSign ++ "79999" :=
  ⟨(C1_terminal_search_event updC1 busyState rfl).2.1,
   ((C1_terminal_search_event updC1 busyState rfl).2.2.2.2.1 _ rfl).1,
   ((C1_terminal_search_event updC1 busyState rfl).2.2.2.2.1 _ rfl).2.1,
   ((C1_terminal_search_event updC1 busyState rfl).2.2.2.2.1 _ rfl).2.2.2.1⟩

/-- C7 counterexample: with a search in flight (`searchBtnDisabled = true`),
the disabled button swallows clicks, but the Enter-key listener on the
product input (app.js:53-55) calls `startSearch` unconditionally and issues
a second `POST /search` — so the client *can* have more than one search in
flight, refuting the claim's "never more than one search in flight". -/
theorem C7_counterexample :
    busyState.searchBtnDisabled = true ∧
    dispatchSearchClick busyState = (busyState, []) ∧
    (dispatchEnterKey busyState).2 =
      [Effect.fetch "POST" "/search" (ReqBody.search "iphone 15")] := by
  decide

/-- C7 (amended): from the moment `startSearch` begins a search until a
terminal `status = "completed"` update arrives or the `/search` request
fails, the search button is disabled, so no second search can be started *by
clicking the search button* (the Enter key bypasses this, see the
counterexample); the button is re-enabled exactly when
`handleSearchComplete` runs or the request's catch branch executes. -/
theorem C7_search_button_disabled :
    (∀ st, strTrim st.productInput ≠ "" →
      (startSearch st).1.searchBtnDisabled = true) ∧
    (∀ st, st.searchBtnDisabled = true → dispatchSearchClick st = (st, [])) ∧
    (∀ u st, u.status ≠ some "completed" →
      (handleUpdate u st).searchBtnDisabled = st.searchBtnDisabled) ∧
    (∀ u st, u.status = some "completed" →
      (handleUpdate u st).searchBtnDisabled = false) ∧
    (∀ st, (onSearchError st).searchBtnDisabled = false) := by
  refine ⟨?_, ?_, ?_, ?_, ?_⟩
  · intro st h
    simp [startSearch, h, setSearchLoading, showStatus, resetCards]
  · intro st h
    simp [dispatchSearchClick, h]
  · intro u st h
    rw [handleUpdate_eq_of_not_completed u st h]
    exact (preSteps_frame u st).2.2.1
  · intro u st h
    rw [handleUpdate_eq_of_completed u st h]
    exact (handleSearchComplete_loading u _).1
  · intro st
    simp [onSearchError, setSearchLoading, showStatus]

theorem C7_witness :
    (startSearch busyState).1.searchBtnDisabled = true ∧
    dispatchSearchClick busyState = (busyState, []) :=
  ⟨C7_search_button_disabled.1 busyState (by decide),
   C7_search_button_disabled.2.1 busyState (by decide)⟩

/-- C5: `startSearch` (on a non-empty trimmed input) sends `POST /search`
with body `{product}` where `product` is the input value with surrounding
whitespace trimmed, and on response stores the returned `task_id` and opens
the per-task push channel at `ws://<host>/ws/<task_id>`, routing every
message received on it through `handleUpdate`. -/
theorem C5_start_search (st : ClientState)
    (h : strTrim st.productInput ≠ "") :
    (startSearch st).2 =
      [Effect.fetch "POST" "/search"
        (ReqBody.search (strTrim st.productInput))] ∧
    (startSearch st).1.currentProduct = strTrim st.productInput ∧
    (∀ host tid,
      (onSearchResponse host tid (startSearch st).1).1.currentTaskId =
        some tid ∧
      (onSearchResponse host tid (startSearch st).1).2.url =
        "ws://" ++ host ++ "/ws/" ++ tid ∧
      (onSearchResponse host tid (startSearch st).1).2.onmessage =
        handleUpdate) := by
  refine ⟨?_, ?_, ?_⟩ <;>
    simp [startSearch, h, onSearchResponse, connectWebSocket,
      setSearchLoading, showStatus, resetCards]

/-- A freshly loaded page with `"  iPhone 15  "` typed into the input. -/
def typedState : ClientState := { initState with productInput := "  iPhone 15  " }

theorem C5_witness :
    (startSearch typedState).2 =
      [Effect.fetch "POST" "/search" (ReqBody.search "iPhone 15")] ∧
    (onSearchResponse "localhost:8000" "t42" (startSearch typedState).1).1.currentTaskId = some "t42" ∧
    (onSearchResponse "localhost:8000" "t42" (startSearch typedState).1).2.url =
      "ws://localhost:8000/ws/t42" ∧
    (onSearchResponse "localhost:8000" "t42" (startSearch typedState).1).2.onmessage = handleUpdate :=
  ⟨(C5_start_search typedState (by decide)).1,
   ((C5_start_search typedState (by decide)).2.2 "localhost:8000" "t42").1,
   ((C5_start_search typedState (by decide)).2.2 "localhost:8000" "t42").2.1,
   ((C5_start_search typedState (by decide)).2.2 "localhost:8000" "t42").2.2⟩

/-- C6: `placeOrder` sends `POST /order` with body `{product, app}` for the
current product and the selected storefront, and subscribes to the returned
task's push channel at `ws://<host>/ws/<task_id>`, whose messages are
handled by the terminal-order-event handler `orderOnMessage`. -/
theorem C6_place_order (st : ClientState) (host tid : String) :
    (placeOrder st).2 =
      [Effect.fetch "POST" "/order"
        (ReqBody.order st.currentProduct st.selectedOrderApp)] ∧
    (onOrderResponse host tid).url = "ws://" ++ host ++ "/ws/" ++ tid ∧
    (onOrderResponse host tid).onmessage = orderOnMessage :=
  ⟨rfl, rfl, rfl⟩

/-- The order-task update with a present-but-empty error string. -/
def updC4 : Update := { status := some "error", error := some "" }

/-- C4 counterexample: the claim says the client "displays `update.error`,
or the ... fallback ... when the error field is absent".  Here the error
field is *present* (the empty string), yet the code displays the fallback
text, not `update.error` — `update.error || 'Failed to place order'`
(app.js:303) falls through on any falsy string. -/
theorem C4_counterexample :
    updC4.error = some "" ∧
    (orderOnMessage updC4 initState).st.orderStatusMsg =
      "Failed to place order" ∧
    (orderOnMessage updC4 initState).st.orderStatusMsg ≠ "" := by
  decide

/-- C4 (amended): for every order-task update with status `"error"`, the
client reports the failure with a human-readable reason — it displays
`update.error` when that is a non-empty string, and the non-empty fallback
text `"Failed to place order"` when the error field is absent *or empty* —
so the displayed reason is never the empty string and a purchase failure is
never silently swallowed; the order-status modal is then scheduled to be
dismissed after 3000 ms and the order websocket is closed. -/
theorem C4_order_error (u : Update) (st : ClientState)
    (h : u.status = some "error") :
    (orderOnMessage u st).st.orderStatusMsg =
      jsOrStr u.error "Failed to place order" ∧
    (orderOnMessage u st).st.orderStatusMsg ≠ "" ∧
    (orderOnMessage u st).st.orderStatusTitle = titleFailed ∧
    (orderOnMessage u st).dismissAfterMs = some 3000 ∧
    (orderOnMessage u st).closeWs = true ∧
    (dismissOrderStatus (orderOnMessage u st).st).orderStatusModalHidden =
      true := by
  have hm : (orderOnMessage u st).st.orderStatusMsg =
      jsOrStr u.error "Failed to place order" := by
    simp [orderOnMessage, h]
  refine ⟨hm, ?_, ?_, ?_, ?_, ?_⟩
  · rw [hm]
    exact jsOrStr_ne_empty u.error _ (by decide)
  all_goals simp [orderOnMessage, h, dismissOrderStatus]

/-- The order-task update used to exercise `C4_order_error`. -/
def updC4w : Update := { status := some "error", error := some "out of stock" }

theorem C4_witness :
    (orderOnMessage updC4w initState).st.orderStatusMsg = "out of stock" ∧
    (orderOnMessage updC4w initState).st.orderStatusMsg ≠ "" ∧
    (orderOnMessage updC4w initState).dismissAfterMs = some 3000 ∧
    (orderOnMessage updC4w initState).closeWs = true :=
  ⟨(C4_order_error updC4w initState rfl).1,
   (C4_order_error updC4w initState rfl).2.1,
   (C4_order_error updC4w initState rfl).2.2.2.1,
   (C4_order_error updC4w initState rfl).2.2.2.2.1⟩

theorem setCardSearching_of_found {st : ClientState} {app : String}
    {c : CardState} (hc : getCard st.cards app = some c) :
    setCardSearching app st =
      { st with cards := setCard st.cards app searchingCard } := by
  unfold setCardSearching
  rw [hc]

theorem setCardSearching_of_none {st : ClientState} {app : String}
    (hc : getCard st.cards app = none) : setCardSearching app st = st := by
  unfold setCardSearching
  rw [hc]

theorem updateCard_of_found {st : ClientState} {app : String} {c : CardState}
    (result : ProbeResult) (hc : getCard st.cards app = some c) :
    updateCard app result st =
      { st with
        cards := setCard st.cards app (cardBody result st.currentProduct),
        results := setResult st.results app result } := by
  unfold updateCard
  rw [hc]

theorem updateCard_of_none {st : ClientState} {app : String}
    (result : ProbeResult) (hc : getCard st.cards app = none) :
    updateCard app result st = st := by
  unfold updateCard
  rw [hc]

theorem cardApps_ne_empty : ∀ x ∈ cardApps, x ≠ "" := by decide

/-- C8: for every pure probe-started update (a `current_app` event, the
spec's shape `\x7bcurrent_app: string\x7d` carries no other field group)
against the configured card grid, the matching card's badge becomes
`"Searching"`, its product-name text `"Searching..."`, and the status banner
announces the probe for that storefront; a `current_app` naming a storefront
with no matching card leaves every card unchanged. -/
theorem C8_probe_started (u : Update) (st : ClientState) (a : String)
    (hA : u.current_app = some a)
    (hc1 : u.app_complete = none) (hc2 : u.status = none)
    (hKeys : st.cards.map Prod.fst = cardApps) :
    (∀ c, getCard st.cards a = some c →
      ∃ c', getCard (handleUpdate u st).cards a = some c' ∧
        c'.badge = "Searching" ∧
        c'.badgeClass = "status-badge searching" ∧
        c'.productName = "Searching..." ∧
        (handleUpdate u st).statusHidden = false ∧
        (handleUpdate u st).statusTitle =
          "Searching on " ++ capitalize a ++ "..." ∧
        (handleUpdate u st).statusMessage =
          "Your phone is searching " ++ a.toUpper ++ " for \"" ++
            st.currentProduct ++ "\"") ∧
    (getCard st.cards a = none → (handleUpdate u st).cards = st.cards) := by
  have hne : u.status ≠ some "completed" := by rw [hc2]; simp
  have hU : handleUpdate u st = currentAppStep u st := by
    rw [handleUpdate_eq_of_not_completed u st hne]
    simp [appCompleteStep, hc1, truthyStr]
  constructor
  · intro c hc
    have hmem := getCard_mem hc
    rw [hKeys] at hmem
    have ha : a ≠ "" := cardApps_ne_empty a hmem
    rw [hU]
    unfold currentAppStep
    rw [hA]
    have ht : truthyStr (some a) = true := by simp [truthyStr, ha]
    simp only [ht, if_true, Option.getD_some]
    have hc' : getCard (showStatus ("Searching on " ++ capitalize a ++ "...")
        ("Your phone is searching " ++ a.toUpper ++ " for \"" ++
          st.currentProduct ++ "\"") st).cards a = some c := hc
    rw [setCardSearching_of_found hc']
    refine ⟨searchingCard c, ?_, rfl, rfl, rfl, rfl, rfl, rfl⟩
    show getCard (setCard _ a searchingCard) a = _
    rw [getCard_setCard_self, hc']
    rfl
  · intro hnone
    rw [hU]
    unfold currentAppStep
    rw [hA]
    by_cases ha : a = ""
    · subst ha
      have ht : truthyStr (some "") = false := by simp [truthyStr]
      simp only [ht, Bool.false_eq_true, if_false]
    · have ht : truthyStr (some a) = true := by simp [truthyStr, ha]
      simp only [ht, if_true, Option.getD_some]
      have hnone' : getCard (showStatus ("Searching on " ++ capitalize a ++ "...")
          ("Your phone is searching " ++ a.toUpper ++ " for \"" ++
            st.currentProduct ++ "\"") st).cards a = none := hnone
      rw [setCardSearching_of_none hnone']
      rfl

/-- The probe-started event used to exercise `C8_probe_started`. -/
def updC8 : Update := { current_app := some "zepto" }

theorem C8_witness :
    (∃ c', getCard (handleUpdate updC8 busyState).cards "zepto" = some c' ∧
      c'.badge = "Searching" ∧
      c'.badgeClass = "status-badge searching" ∧
      c'.productName = "Searching..." ∧
      (handleUpdate updC8 busyState).statusHidden = false ∧
      (handleUpdate updC8 busyState).statusTitle =
        "Searching on " ++ capitalize "zepto" ++ "..." ∧
      (handleUpdate updC8 busyState).statusMessage =
        "Your phone is searching " ++ "zepto".toUpper ++ " for \"" ++
          busyState.currentProduct ++ "\"") :=
  (C8_probe_started updC8 busyState "zepto" rfl rfl rfl (by decide)).1
    freshCard (by decide)

/-- C3 counterexample: the claim says a found result with a *present* price
is displayed with a `'Found'` badge, but `updateCard` requires
`result.found && result.price` (app.js:237) — a present price of `0` is
falsy, so `{found: true, price: 0}` is rendered through the error branch
with an `'Error'` badge. -/
theorem C3_counterexample :
    (⟨true, some 0, none⟩ : ProbeResult).found = true ∧
    (⟨true, some 0, none⟩ : ProbeResult).price = some 0 ∧
    (getCard (updateCard "amazon" ⟨true, some 0, none⟩ initState).cards
        "amazon").map CardState.badge = some "Error" ∧
    (getCard (updateCard "amazon" ⟨true, some 0, none⟩ initState).cards
        "amazon").map CardState.badge ≠ some "Found" := by
  decide

/-- C3 (amended): for every update carrying both `app_complete` and
`result`, applied to a storefront with a matching price card: when
`result.found` is true and a *truthy (non-zero, non-missing)* price is
present, the price value is displayed with a `'Found'` badge and the buy
button is revealed; when `found` is false the card shows `result.error`
when that is a non-empty string (or the text `'Not found'` when `error` is
absent or empty) with an `'Error'` badge; in either branch the result is
recorded in `this.results` keyed by the storefront identifier. -/
theorem C3_card_update (app : String) (r : ProbeResult) (st : ClientState)
    (c : CardState) (hc : getCard st.cards app = some c) :
    (r.found = true → truthyNum r.price = true →
      ∃ c', getCard (updateCard app r st).cards app = some c' ∧
        c'.priceValue = priceText r.price ∧
        c'.productName = st.currentProduct ∧
        c'.badge = "Found" ∧ c'.badgeClass = "status-badge found" ∧
        c'.buyHidden = false) ∧
    (r.found = false →
      ∃ c', getCard (updateCard app r st).cards app = some c' ∧
        c'.priceValue = "--" ∧
        c'.productName = jsOrStr r.error "Not found" ∧
        c'.badge = "Error" ∧ c'.badgeClass = "status-badge error") ∧
    getResult (updateCard app r st).results app = some r := by
  rw [updateCard_of_found r hc]
  refine ⟨?_, ?_, ?_⟩
  · intro hf hp
    show ∃ c', getCard (setCard st.cards app _) app = some c' ∧ _
    rw [getCard_setCard_self, hc]
    refine ⟨cardBody r st.currentProduct c, rfl, ?_, ?_, ?_, ?_, ?_⟩ <;>
      simp [cardBody, hf, hp]
  · intro hf
    show ∃ c', getCard (setCard st.cards app _) app = some c' ∧ _
    rw [getCard_setCard_self, hc]
    refine ⟨cardBody r st.currentProduct c, rfl, ?_, ?_, ?_, ?_⟩ <;>
      simp [cardBody, hf]
  · exact getResult_setResult_self st.results app r

theorem C3_witness :
    (∃ c', getCard (updateCard "amazon" ⟨true, some 499, none⟩
        initState).cards "amazon" = some c' ∧
      c'.priceValue = priceText (some 499) ∧
      c'.productName = initState.currentProduct ∧
      c'.badge = "Found" ∧ c'.badgeClass = "status-badge found" ∧
      c'.buyHidden = false) ∧
    getResult (updateCard "amazon" ⟨true, some 499, none⟩
        initState).results "amazon" = some ⟨true, some 499, none⟩ :=
  ⟨(C3_card_update "amazon" ⟨true, some 499, none⟩ initState freshCard
      (by decide)).1 rfl (by decide),
   (C3_card_update "amazon" ⟨true, some 499, none⟩ initState freshCard
      (by decide)).2.2⟩

/-- C9: an `app_complete` result with `found = true` but a falsy price
(absent or `0`) takes the not-found branch of `updateCard`: the price area
shows `"--"`, the badge reads `"Error"` with `result.error` or
`"Not found"` as the text, the buy button keeps its previous (hidden)
visibility, and the rendered cards are identical to those of a not-found
result with the same error. -/
theorem C9_found_price_falsy (app : String) (r : ProbeResult)
    (st : ClientState) (c : CardState) (hc : getCard st.cards app = some c)
    (hf : r.found = true) (hp : truthyNum r.price = false) :
    ∃ c', getCard (updateCard app r st).cards app = some c' ∧
      c'.priceValue = "--" ∧ c'.badge = "Error" ∧
      c'.badgeClass = "status-badge error" ∧
      c'.productName = jsOrStr r.error "Not found" ∧
      c'.buyHidden = c.buyHidden ∧
      (updateCard app r st).cards =
        (updateCard app { r with found := false } st).cards := by
  rw [updateCard_of_found r hc, updateCard_of_found { r with found := false } hc]
  have hbody : cardBody r st.currentProduct =
      cardBody { r with found := false } st.currentProduct := by
    funext c0
    simp [cardBody, hf, hp]
  show ∃ c', getCard (setCard st.cards app _) app = some c' ∧ _
  rw [getCard_setCard_self, hc]
  refine ⟨cardBody r st.currentProduct c, rfl, ?_, ?_, ?_, ?_, ?_, ?_⟩ <;>
    simp [cardBody, hf, hp, hbody]

theorem C9_witness :
    ∃ c', getCard (updateCard "blinkit" ⟨true, some 0, none⟩
        initState).cards "blinkit" = some c' ∧
      c'.priceValue = "--" ∧ c'.badge = "Error" ∧
      c'.badgeClass = "status-badge error" ∧
      c'.productName = jsOrStr none "Not found" ∧
      c'.buyHidden = freshCard.buyHidden ∧
      (updateCard "blinkit" ⟨true, some 0, none⟩ initState).cards =
        (updateCard "blinkit" ⟨false, some 0, none⟩ initState).cards :=
  C9_found_price_falsy "blinkit" ⟨true, some 0, none⟩ initState freshCard
    (by decide) rfl (by decide)

/-- C10: an `app_complete` update naming a storefront with no matching
price card makes `updateCard` return before any change: the whole client
state — cards and `this.results` included — is exactly what it was. -/
theorem C10_no_card_no_change (app : String) (r : ProbeResult)
    (st : ClientState) (h : getCard st.cards app = none) :
    updateCard app r st = st :=
  updateCard_of_none r h

theorem C10_witness :
    updateCard "myntra" ⟨false, none, some "timeout"⟩ initState = initState :=
  C10_no_card_no_change "myntra" ⟨false, none, some "timeout"⟩ initState
    (by decide)

theorem selectMin_eq_none_iff (l : List (String × Int)) :
    selectMin l = none ↔ l = [] := by
  cases l <;> simp [selectMin]

theorem selectMin_mem {l : List (String × Int)} {y : String × Int}
    (h : selectMin l = some y) : y ∈ l := by
  induction l generalizing y with
  | nil => simp [selectMin] at h
  | cons x t ih =>
      have hy : pickBetter x (selectMin t) = y := by
        simpa [selectMin] using h
      rcases ht : selectMin t with _ | z
      · rw [ht] at hy
        simp only [pickBetter] at hy
        subst hy
        exact List.mem_cons_self x t
      · rw [ht] at hy
        simp only [pickBetter] at hy
        by_cases hlt : z.2 < x.2
        · rw [if_pos hlt] at hy
          subst hy
          exact List.mem_cons_of_mem x (ih ht)
        · rw [if_neg hlt] at hy
          subst hy
          exact List.mem_cons_self x t

theorem selectMin_le {l : List (String × Int)} {y : String × Int}
    (h : selectMin l = some y) : ∀ x ∈ l, y.2 ≤ x.2 := by
  induction l generalizing y with
  | nil => simp
  | cons x t ih =>
      intro w hw
      have hy : pickBetter x (selectMin t) = y := by
        simpa [selectMin] using h
      rcases ht : selectMin t with _ | z
      · have htnil : t = [] := (selectMin_eq_none_iff t).mp ht
        subst htnil
        rw [ht] at hy
        simp only [pickBetter] at hy
        subst hy
        simp at hw
        subst hw
        exact le_refl _
      · rw [ht] at hy
        simp only [pickBetter] at hy
        by_cases hlt : z.2 < x.2
        · rw [if_pos hlt] at hy
          subst hy
          rcases List.mem_cons.mp hw with hwx | hwt
          · subst hwx
            omega
          · exact ih ht w hwt
        · rw [if_neg hlt] at hy
          subst hy
          rcases List.mem_cons.mp hw with hwx | hwt
          · subst hwx
            exact le_refl _
          · have := ih ht w hwt
            omega

theorem selectMin_first {l : List (String × Int)} {y : String × Int}
    (h : selectMin l = some y) :
    (l.filter (fun x => x.2 == y.2)).head? = some y := by
  induction l generalizing y with
  | nil => simp [selectMin] at h
  | cons x t ih =>
      have hy : pickBetter x (selectMin t) = y := by
        simpa [selectMin] using h
      rcases ht : selectMin t with _ | z
      · rw [ht] at hy
        simp only [pickBetter] at hy
        subst hy
        simp [List.filter_cons]
      · rw [ht] at hy
        simp only [pickBetter] at hy
        by_cases hlt : z.2 < x.2
        · rw [if_pos hlt] at hy
          subst hy
          have hne : (x.2 == z.2) = false := by
            simp
            omega
          simp only [List.filter_cons, hne, Bool.false_eq_true, if_false]
          exact ih ht
        · rw [if_neg hlt] at hy
          subst hy
          simp [List.filter_cons]

theorem arrivedResult_perm {l l' : List (String × SProbe)} (h : l.Perm l') :
    (l.map Prod.fst).Nodup →
      ∀ app, arrivedResult l app = arrivedResult l' app := by
  induction h with
  | nil => intro _ app; rfl
  | cons x h ih =>
      intro hn app
      obtain ⟨x1, x2⟩ := x
      simp only [arrivedResult]
      by_cases hax : app = x1
      · simp [hax]
      · simp only [hax, if_false]
        exact ih (List.nodup_cons.mp (by simpa using hn)).2 app
  | swap x y t =>
      intro hn app
      obtain ⟨x1, x2⟩ := x
      obtain ⟨y1, y2⟩ := y
      have hne : y1 ≠ x1 := by
        simp [List.nodup_cons] at hn
        exact hn.1.1
      simp only [arrivedResult]
      by_cases h1 : app = y1 <;> by_cases h2 : app = x1
      · exact absurd (h1.symm.trans h2) hne
      · simp [h1, h2, hne, Ne.symm hne]
      · simp [h1, h2, hne, Ne.symm hne]
      · simp [h1, h2]
  | trans h1 h2 ih1 ih2 =>
      intro hn app
      have hn2 := ((h1.map Prod.fst).nodup_iff).mp hn
      rw [ih1 hn app, ih2 hn2 app]

/-- C2: spec-modelled (the Search Orchestrator is not shipped under `src/`).
Whenever at least one storefront reported `found = true`, the computed Offer
exists, is one of the found results, its price is the minimum of the found
prices, and among the minimum-price results it is the *first* in configured
precedence order — deterministic tie-break by lowest precedence index.
Moreover the computed Offer depends only on the set of recorded probe
results: any permutation of the completion order (with each storefront
settling once) yields the same Offer. -/
theorem C2_winner_selection :
    (∀ (res : String → Option SProbe) (cfg : List String),
      foundOffers res cfg ≠ [] →
      ∃ b p, computeBest res cfg = some (b, p) ∧
        (b, p) ∈ foundOffers res cfg ∧
        (∀ x ∈ foundOffers res cfg, p ≤ x.2) ∧
        ((foundOffers res cfg).filter (fun x => x.2 == p)).head? =
          some (b, p)) ∧
    (∀ (l l' : List (String × SProbe)) (cfg : List String),
      l.Perm l' → (l.map Prod.fst).Nodup →
      computeBest (arrivedResult l) cfg =
        computeBest (arrivedResult l') cfg) := by
  constructor
  · intro res cfg hne
    rcases hsel : selectMin (foundOffers res cfg) with _ | y
    · exact absurd ((selectMin_eq_none_iff _).mp hsel) hne
    · obtain ⟨b, p⟩ := y
      exact ⟨b, p, hsel, selectMin_mem hsel, selectMin_le hsel,
        selectMin_first hsel⟩
  · intro l l' cfg hperm hnodup
    have h : arrivedResult l = arrivedResult l' :=
      funext (arrivedResult_perm hperm hnodup)
    rw [h]

/-- A shuffled completion order for the spec §8 example: prices
not-found, 79999, 79999, 81000 for amazon, flipkart, blinkit, zepto. -/
def arrivalsW : List (String × SProbe) :=
  [("zepto", ⟨true, 81000⟩), ("amazon", ⟨false, 0⟩),
   ("blinkit", ⟨true, 79999⟩), ("flipkart", ⟨true, 79999⟩)]

theorem C2_witness :
    (∃ b p, computeBest (arrivedResult arrivalsW) cardApps = some (b, p) ∧
      (b, p) ∈ foundOffers (arrivedResult arrivalsW) cardApps ∧
      (∀ x ∈ foundOffers (arrivedResult arrivalsW) cardApps, p ≤ x.2) ∧
      ((foundOffers (arrivedResult arrivalsW) cardApps).filter
        (fun x => x.2 == p)).head? = some (b, p)) ∧
    computeBest (arrivedResult arrivalsW) cardApps =
      some ("flipkart", 79999) :=
  ⟨C2_winner_selection.1 (arrivedResult arrivalsW) cardApps (by decide),
   by decide⟩
